import Mathlib

/-!
Verification of the BeatSync (pysaber) song resolution and acquisition
pipeline.  Every definition below is a shallow embedding of the
corresponding Python function in `src/pysaber.py`; strings are modelled as
`List Char` (ASCII semantics for the regular-expression character classes),
Python exceptions are modelled with `Except Err`, and the filesystem plus
the append-only log are threaded explicitly through a `RunState`.
-/

deriving instance DecidableEq for Except

/-- Strings of the Python program are modelled as lists of characters. -/
abbrev Str := List Char

/-- Python whitespace (`\s`, `str.strip`) restricted to ASCII. -/
def isWs (c : Char) : Bool :=
  c = ' ' || c = '\t' || c = '\n' || c = '\r' || c = '\x0b' || c = '\x0c'

/-- The boundary characters of the character class in
`sanitize_song_name` (pysaber.py line 20): one of `(`, `,`, `-`, `[`, `.`. -/
def isBoundary (c : Char) : Bool :=
  c = '(' || c = ',' || c = '-' || c = '[' || c = '.'

/-- Python `\w` (ASCII): letters, digits and underscore. -/
def isWordChar (c : Char) : Bool :=
  c.isAlpha || c.isDigit || c = '_'

/-- Python `str.strip()`: remove leading and trailing whitespace. -/
def pyStrip (s : Str) : Str :=
  ((s.dropWhile isWs).reverse.dropWhile isWs).reverse

/-- pysaber.py line 15: `sanitize` removes every newline character and
strips surrounding whitespace. -/
def sanitize (s : Str) : Str :=
  pyStrip (s.filter (fun c => c ≠ '\n'))

/-- pysaber.py line 19: `sanitize_song_name` matches the anchored regex
`^([^\(,\-\[\.]+)` against the name and returns the stripped first group;
when the regex does not match (empty name, or a name starting with a
boundary character) the Python function returns `None`, modelled as
`none`. -/
def sanitize_song_name (name : Str) : Option Str :=
  match name.takeWhile (fun c => !isBoundary c) with
  | [] => none
  | c :: cs => some (pyStrip (c :: cs))

/-- Python `str.strip()` of trailing whitespace only (the `\s*$` tail of
the regex in `special_song_name`). -/
def dropTrailWs (s : Str) : Str :=
  (s.reverse.dropWhile isWs).reverse

/-- The maximal run of decimal digits at the end of a string. -/
def trailingDigits (s : Str) : Str :=
  (s.reverse.takeWhile (fun c => c.isDigit)).reverse

/-- Whether a line ends in a trailing `-<digits>` marker (with trailing
whitespace tolerated and a nonempty part before the dash), i.e. whether
the regex `(.+?)(\-\d+)?\s*$` of pysaber.py line 159 matches the line with
a nonempty second group. -/
def hasVariantSuffix (lines : Str) : Bool :=
  let t := dropTrailWs lines
  let ds := trailingDigits t
  let pre := t.take (t.length - ds.length)
  !ds.isEmpty && (pre.getLast? = some '-') && decide (2 ≤ pre.length)

/-- pysaber.py lines 158-162: `special_song_name` searches the line with
the regex `(.+?)(\-\d+)?\s*$`.  When a trailing `-<digits>` group is
found it returns the digits (group 2 without the dash) and the stripped
part before the dash (group 1); otherwise it returns `(None, lines)` with
the line unchanged. -/
def special_song_name (lines : Str) : Option Str × Str :=
  let t := dropTrailWs lines
  let ds := trailingDigits t
  let pre := t.take (t.length - ds.length)
  if !ds.isEmpty && (pre.getLast? = some '-') && decide (2 ≤ pre.length) then
    (some ds, pyStrip pre.dropLast)
  else
    (none, lines)

/-- pysaber.py lines 36-46: `trunc_difficulty` abbreviates the known
difficulty labels through a fixed table and passes unknown labels
through unchanged. -/
def trunc_difficulty (d : Str) : Str :=
  if d = "Easy".toList then "Ea".toList
  else if d = "Normal".toList then "No".toList
  else if d = "Hard".toList then "Ha".toList
  else if d = "Expert".toList then "Ex".toList
  else if d = "Expert+".toList then "Ex+".toList
  else if d = "Standard".toList then "St".toList
  else if d = "Advanced".toList then "Ad".toList
  else d

/-- Python `", ".join(...)` on a list of strings. -/
def joinCommaSep : List Str → Str
  | [] => []
  | [x] => x
  | x :: y :: ys => x ++ ',' :: ' ' :: joinCommaSep (y :: ys)

/-- Value of a nonempty all-digit string, as Python `int` computes it. -/
def digitsVal (ds : Str) : Option Int :=
  if !ds.isEmpty && ds.all (fun c => c.isDigit) then
    some (ds.foldl (fun a c => a * 10 + ((c.toNat : Int) - 48)) 0)
  else
    none

/-- Python `int(s)` on a string (ASCII): strips whitespace, accepts an
optional sign followed by one or more digits, and raises `ValueError`
(modelled as `none`) otherwise. -/
def pyInt (s : Str) : Option Int :=
  match pyStrip s with
  | '+' :: ds => digitsVal ds
  | '-' :: ds => (digitsVal ds).map (fun v => -v)
  | ds => digitsVal ds

/-- Python `re.match(r"\d+", s)` is truthy exactly when the string starts
with a decimal digit. -/
def matchesLeadingDigit (s : Str) : Bool :=
  match s with
  | [] => false
  | c :: _ => c.isDigit

/-- One candidate song row, the 7-tuple built by `get_info`
(pysaber.py line 71): title, joined difficulty labels, upvotes,
downvotes, mapper, date (kept as the raw `content` attribute text) and
the optional download link. -/
structure SongCandidate where
  title : Str
  difficulties : Str
  upvote : Int
  downvote : Int
  mapper : Str
  date : Str
  dwn_link : Option Str
deriving DecidableEq

/-- The approval ratio `upvotes / (downvotes + 0.01)` used by the spec,
over exact rationals. -/
def ratio (c : SongCandidate) : ℚ :=
  (c.upvote : ℚ) / ((c.downvote : ℚ) + 1 / 100)

/-- The sort key `-x[2] / (x[3] + 0.01)` of pysaber.py line 265. -/
def sortKey (c : SongCandidate) : ℚ :=
  (-(c.upvote : ℚ)) / ((c.downvote : ℚ) + 1 / 100)

/-- The comparison used by the (stable, ascending) Python `sorted` on the
key of pysaber.py line 265. -/
def rankLE (a b : SongCandidate) : Bool :=
  decide (sortKey a ≤ sortKey b)

/-- pysaber.py line 265: `sorted(bsaber_songs, key=lambda x: -x[2] / (x[3] + 0.01))`.
Python `sorted` is a stable ascending sort, modelled by the stable
`List.mergeSort`. -/
def rank (l : List SongCandidate) : List SongCandidate :=
  l.mergeSort rankLE

/-- pysaber.py lines 154-155: `combine_search(*songs_list)` concatenates
the result lists (`sum(songs_list, start=[])`) and removes exact-tuple
duplicates through a Python `set`; the unspecified iteration order of the set
is modelled as first-occurrence deduplication. -/
def combine_search (songs_list : List (List SongCandidate)) : List SongCandidate :=
  songs_list.flatten.dedup

/-- The Python exceptions that can escape the pipeline. -/
inductive Err where
  /-- a `requests` transport failure raised inside `search_songs` -/
  | transport
  /-- `ValueError` from `int(...)` -/
  | valueError
  /-- `ValueError` from unpacking `upvote, downvote = stats` -/
  | unpack
  /-- `AttributeError` from `None.group(1)` in the mapper extraction -/
  | attr
  /-- `requests.get(None)`: `MissingSchema` raised while preparing the URL -/
  | missingSchema
  /-- `IndexError` from `bsaber_songs[int(n) - 1]` -/
  | indexError
  /-- the interactive input stream is exhausted (`input()` would block) -/
  | eof
deriving DecidableEq

/-- One result-page row, abstracted to the accessors `get_info` uses:
the widget-class test (line 50), the header text (line 52), the
difficulty link texts (lines 53-58), the stat-span texts (lines 59-61),
the text of the optional mapper-meta block (lines 63-68), the `content`
attribute of the `time` element (line 69) and the optional download
`href` (line 70). -/
structure Row where
  isWidget : Bool
  headerText : Str
  diffTexts : List Str
  statTexts : List Str
  mapperMeta : Option Str
  timeContent : Str
  downloadHref : Option Str

/-- pysaber.py lines 59-62, the stats step of `get_info`: drop the first
stat span, parse the rest with `int(sanitize(...))` (a parse failure is a
`ValueError`), then unpack `upvote, downvote = stats if stats else (0, 0)`,
which raises a `ValueError` unless the remaining list is empty or has
exactly two elements.  `parseStatInts` is the comprehension
`[int(sanitize(s.text)) for s in ...]`: left to right, the first parse
failure raises. -/
def parseStatInts : List Str → Option (List Int)
  | [] => some []
  | s :: ss =>
    match pyInt (sanitize s), parseStatInts ss with
    | some v, some vs => some (v :: vs)
    | _, _ => none

def statsOf (statTexts : List Str) : Except Err (Int × Int) :=
  match parseStatInts (statTexts.drop 1) with
  | none => .error .valueError
  | some [] => .ok (0, 0)
  | some [u, d] => .ok (u, d)
  | some _ => .error .unpack

/-- Scanner for `re.search(r"\n+(\w+)", s)`: `afterNl` records whether
the previous character was a newline; at the first word character
preceded by a newline run the group (the word run from there) is
returned. -/
def searchNlWordAux (afterNl : Bool) : Str → Option Str
  | [] => none
  | c :: rest =>
    if c = '\n' then searchNlWordAux true rest
    else if afterNl && isWordChar c then some (c :: rest.takeWhile isWordChar)
    else searchNlWordAux false rest

/-- Python `re.search(r"\n+(\w+)", s)`: the first run of newlines that is
immediately followed by a word character; the group is the word run
after the newlines.  Returns `none` when no such position exists. -/
def searchNlWord (s : Str) : Option Str :=
  searchNlWordAux false s

/-- pysaber.py lines 63-68, the mapper step of `get_info`: the searched
text is `m and m.text or ""` (the text of the block, or the empty string when
the block is absent), and the code then calls `.group(1)` on the result
of `re.search` without a `None` check, so a failed search raises
`AttributeError`. -/
def mapperOf (mapperMeta : Option Str) : Except Err Str :=
  match searchNlWord (mapperMeta.getD []) with
  | none => .error .attr
  | some w => .ok w

/-- pysaber.py lines 49-71: `get_info` returns `None` for widget rows and
otherwise builds the candidate 7-tuple; the stats step and the mapper
step can raise (`Except.error`). -/
def get_info (row : Row) : Except Err (Option SongCandidate) :=
  if row.isWidget then
    .ok none
  else
    match statsOf row.statTexts with
    | .error e => .error e
    | .ok (upvote, downvote) =>
      match mapperOf row.mapperMeta with
      | .error e => .error e
      | .ok mapper =>
        .ok (some
          { title := sanitize row.headerText
            difficulties := joinCommaSep (row.diffTexts.map trunc_difficulty)
            upvote := upvote
            downvote := downvote
            mapper := mapper
            date := row.timeContent
            dwn_link := row.downloadHref })

/-- Scanner for `sub(r"\s+", "+", query)`: `prevWs` records whether the
previous character was whitespace (so only the first character of a
whitespace run emits the `+`). -/
def normalizeQueryAux (prevWs : Bool) : Str → Str
  | [] => []
  | c :: rest =>
    if isWs c then
      if prevWs then normalizeQueryAux true rest
      else '+' :: normalizeQueryAux true rest
    else c :: normalizeQueryAux false rest

/-- pysaber.py line 25: `sub(r"\s+", "+", query)` replaces every maximal
whitespace run by a single `+`. -/
def normalizeQuery (s : Str) : Str :=
  normalizeQueryAux false s

/-- pysaber.py lines 30-32: parse every row of the page through
`get_info`, keeping the truthy results in page order; an exception from
`get_info` propagates. -/
def parse_rows : List Row → Except Err (List SongCandidate)
  | [] => .ok []
  | r :: rs =>
    match get_info r with
    | .error e => .error e
    | .ok none => parse_rows rs
    | .ok (some c) =>
      match parse_rows rs with
      | .error e => .error e
      | .ok cs => .ok (c :: cs)

/-- pysaber.py lines 23-33: `search_songs` normalizes the query, fetches
the result page over the transport (a transport failure raises, modelled
by the oracle returning `Except.error`), and parses its rows. -/
def search_songs (fetch : Str → Except Err (List Row)) (query : Str) :
    Except Err (List SongCandidate) :=
  match fetch (normalizeQuery query) with
  | .error e => .error e
  | .ok rows => parse_rows rows

/-- pysaber.py lines 268-275, the interactive selection loop: each
prompt consumes one operator input; an input that does not start with a
digit fails `re.match(r"\d+", n)` and is re-prompted without evaluating
`int(n)`; otherwise `int(n)` is evaluated (raising `ValueError` on a
string that starts with a digit but is not an integer literal) and the
loop exits when the value lies in `range(count + 1)`. -/
def selection_loop (count : Nat) : List Str → Except Err (Int × List Str)
  | [] => .error .eof
  | s :: rest =>
    if matchesLeadingDigit s then
      match pyInt s with
      | none => .error .valueError
      | some k =>
        if 0 ≤ k ∧ k < (count : Int) + 1 then .ok (k, rest)
        else selection_loop count rest
    else
      selection_loop count rest

/-- Observable effects of `download_song`. -/
inductive Ev where
  /-- the "No link working" failure message (line 77) -/
  | failMsg
  /-- the "Downloading" status message (line 78) -/
  | startMsg
  /-- the call to `get(link, headers=HEADERS)` (line 79) -/
  | fetchCall (link : Option Str)
  /-- writing the archive file (line 80) -/
  | fileWrite (name : Str)
  /-- the "Downloaded" success message (line 81) -/
  | succeedMsg
deriving DecidableEq

/-- pysaber.py lines 74-81: `download_song`.  When the link is falsy the
failure message is printed but the function does not return: it falls
through to `get(link, headers=HEADERS)`, and `requests.get(None)` raises
`MissingSchema` while preparing the URL (before the file is written).
With a link present the archive is fetched and written.  The first
component records the observable effects in order; the second is the
resulting file set or the raised exception. -/
def download_song (link : Option Str) (filename : Str) (files : List Str) :
    List Ev × Except Err (List Str) :=
  match link with
  | none =>
    ([Ev.failMsg, Ev.startMsg, Ev.fetchCall none], .error .missingSchema)
  | some u =>
    ([Ev.startMsg, Ev.fetchCall (some u), Ev.fileWrite filename, Ev.succeedMsg],
      .ok (files ++ [filename]))

/-- The filesystem (set of file paths present) and the append-only
log, threaded through acquisition. -/
structure RunState where
  files : List Str
  log : List Str
deriving DecidableEq

/-- Outcome of the acquisition step for one accepted candidate. -/
inductive Outcome where
  /-- dry-run: "Matched with ..." (lines 283-286) -/
  | matchedOnly
  /-- the archive was fetched and written (line 288) -/
  | downloaded
  /-- "Already downloaded ..." (lines 289-292) -/
  | alreadyPresent
deriving DecidableEq

/-- pysaber.py lines 283-295, the acquisition step for an accepted
candidate: in test mode report the match; otherwise download when no
file named `filename` exists, else report "Already downloaded"; in every
non-raising branch the song name is then appended to the log file of the run
(lines 293-295). -/
def acquire (test : Bool) (songName : Str) (link : Option Str) (filename : Str)
    (st : RunState) : Except Err (Outcome × RunState) :=
  if test then
    .ok (.matchedOnly, { st with log := st.log ++ [songName] })
  else if ¬ filename ∈ st.files then
    match (download_song link filename st.files).2 with
    | .error e => .error e
    | .ok files2 => .ok (.downloaded, { files := files2, log := st.log ++ [songName] })
  else
    .ok (.alreadyPresent, { st with log := st.log ++ [songName] })


/-- Python list indexing `l[i]` with negative-index wrap-around;
`none` models an `IndexError`. -/
def pyIndex (l : List SongCandidate) (i : Int) : Option SongCandidate :=
  if 0 ≤ i then l[i.toNat]?
  else if 0 ≤ (l.length : Int) + i then l[((l.length : Int) + i).toNat]?
  else none

/-- `os.path.join` for nonempty relative components (the only shapes the
pipeline builds): join with a single slash, keeping the right component
when the left is empty. -/
def pathJoin (a b : Str) : Str :=
  if a.isEmpty then b else a ++ '/' :: b

/-- One entry of `songs_to_search` (pysaber.py lines 223-254): the
optional variant ordinal string, the primary query `song_more` and the
optional secondary query `song_less`. -/
structure Wanted where
  number : Option Str
  song_more : Str
  song_less : Option Str

/-- The per-song observable outcome of one iteration of the downloading
loop. -/
inductive Report where
  /-- "No song found for ..." (line 299) -/
  | noSongFound (q : Str)
  /-- "Skipped ..." (line 297) -/
  | skipped (q : Str)
  /-- the acquisition step ran with the given outcome (lines 283-295) -/
  | acquired (o : Outcome) (title : Str)
deriving DecidableEq

/-- pysaber.py lines 259-300, one iteration of the downloading loop:
search for `song_more` (an exception propagates), optionally search for
`song_less` and merge through `combine_search`, report "No song found"
on an empty result, otherwise rank and select (interactively or from
`number or 1`), then skip or acquire.  Returns the report, the remaining
interactive inputs and the new run state. -/
def process_song (fetch : Str → Except Err (List Row)) (automatic test : Bool)
    (path_to_folder playlist_name : Str) (w : Wanted)
    (inputs : List Str) (st : RunState) : Except Err (Report × List Str × RunState) :=
  match search_songs fetch w.song_more with
  | .error e => .error e
  | .ok s1 =>
    match (match w.song_less with
           | none => Except.ok s1
           | some q =>
             match search_songs fetch q with
             | .error e => .error e
             | .ok s2 => .ok (combine_search [s1, s2])) with
    | .error e => .error e
    | .ok bsaber_songs =>
      if bsaber_songs.isEmpty then
        .ok (.noSongFound w.song_more, inputs, st)
      else
        let ranked := rank bsaber_songs
        match (if ¬ automatic then
                 selection_loop ranked.length inputs
               else if (w.number.getD []).isEmpty then
                 Except.ok ((1 : Int), inputs)
               else
                 match pyInt (w.number.getD []) with
                 | none => Except.error Err.valueError
                 | some k => Except.ok (k, inputs)) with
        | .error e => .error e
        | .ok (k, inputs2) =>
          if k ≠ 0 then
            match pyIndex ranked (k - 1) with
            | none => .error .indexError
            | some selected =>
              let song_name := selected.title
              let song_link := selected.dwn_link
              let path_to_file := pathJoin (pathJoin path_to_folder playlist_name) song_name
              let filename :=
                if ¬ playlist_name.isEmpty then path_to_file ++ ".zip".toList
                else song_name
              match acquire test song_name song_link filename st with
              | .error e => .error e
              | .ok (o, st2) => .ok (.acquired o song_name, inputs2, st2)
          else
            .ok (.skipped w.song_more, inputs2, st)

/-- pysaber.py lines 259-300, the whole downloading loop: the songs are
processed strictly in order and an exception raised while processing one
song propagates, aborting the rest of the run. -/
def run_songs (fetch : Str → Except Err (List Row)) (automatic test : Bool)
    (path_to_folder playlist_name : Str) :
    List Wanted → List Str → RunState → Except Err (List Report × RunState)
  | [], _, st => .ok ([], st)
  | w :: rest, inputs, st =>
    match process_song fetch automatic test path_to_folder playlist_name w inputs st with
    | .error e => .error e
    | .ok (r, inputs2, st2) =>
      match run_songs fetch automatic test path_to_folder playlist_name rest inputs2 st2 with
      | .error e => .error e
      | .ok (rs, st3) => .ok (r :: rs, st3)

/-- A candidate with `(upvotes, downvotes) = (10, 0)` (ratio 1000). -/
def candTop : SongCandidate :=
  { title := "A".toList, difficulties := [], upvote := 10, downvote := 0,
    mapper := "m".toList, date := "2020-01-01".toList, dwn_link := none }

/-- A candidate with `(upvotes, downvotes) = (5, 1)` (ratio about 4.95). -/
def candMid : SongCandidate :=
  { title := "B".toList, difficulties := [], upvote := 5, downvote := 1,
    mapper := "m".toList, date := "2020-01-01".toList, dwn_link := none }

/-- A candidate with `(upvotes, downvotes) = (5, 5)` (ratio about 1). -/
def candLow : SongCandidate :=
  { title := "C".toList, difficulties := [], upvote := 5, downvote := 5,
    mapper := "m".toList, date := "2020-01-01".toList, dwn_link := none }

/-- Concrete song title used in the acquisition scenarios. -/
def exTitle : Str := "Song".toList

/-- Concrete download link used in the acquisition scenarios. -/
def exLink : Str := "http://x/z.zip".toList

/-- Concrete destination path used in the acquisition scenarios. -/
def exFile : Str := "P/Song.zip".toList

/-- A query whose fetch fails with a transport error. -/
def qBad : Str := "bad".toList

/-- A query whose fetch succeeds with an empty result page. -/
def qGood : Str := "good".toList

/-- A transport oracle failing on `qBad` and returning an empty page
otherwise. -/
def fetchC3 (q : Str) : Except Err (List Row) :=
  if q = qBad then .error .transport else .ok []

/-- A wanted song whose search hits the transport failure. -/
def wBad : Wanted := { number := none, song_more := qBad, song_less := none }

/-- A wanted song whose search succeeds (with zero candidates). -/
def wGood : Wanted := { number := none, song_more := qGood, song_less := none }

/-- A song row whose mapper-meta block is absent (every other field
well-formed). -/
def rowNoMapper : Row :=
  { isWidget := false, headerText := "Title".toList, diffTexts := [],
    statTexts := ["1203 plays".toList, "42".toList, "3".toList],
    mapperMeta := none, timeContent := "2020-01-01".toList,
    downloadHref := some "http://d".toList }

/-- The same row with a mapper-meta block whose text names Alice after a
newline run. -/
def rowWithMapper : Row :=
  { rowNoMapper with mapperMeta := some "Mapper\n\nAlice tag".toList }

section Sanity

example : sanitize_song_name "Song - Artist (feat. X)".toList = some "Song".toList := by decide

example : special_song_name "abc-12  ".toList = (some "12".toList, "abc".toList) := by decide

example : special_song_name "abc-1-2".toList = (some "2".toList, "abc-1".toList) := by decide

example : special_song_name "-12".toList = (none, "-12".toList) := by decide

example : pyInt "  12 ".toList = some 12 := by decide

example : pyInt "1a".toList = none := by decide

example : get_info rowNoMapper = .error .attr := by decide

example :
    get_info rowWithMapper =
      .ok (some
        { title := "Title".toList, difficulties := [], upvote := 42, downvote := 3,
          mapper := "Alice".toList, date := "2020-01-01".toList,
          dwn_link := some "http://d".toList }) := by decide

example :
    run_songs fetchC3 true true [] [] [wBad, wGood] [] { files := [], log := [] }
      = .error .transport := by decide

example :
    run_songs fetchC3 true true [] [] [wGood, wGood] [] { files := [], log := [] }
      = .ok ([.noSongFound qGood, .noSongFound qGood], { files := [], log := [] }) := by
  decide

example : selection_loop 3 ["1a".toList, "2".toList] = .error .valueError := by decide

example : selection_loop 3 ["x".toList, "9".toList, "0".toList] = .ok (0, []) := by decide

example :
    acquire false exTitle (some exLink) exFile { files := [], log := [] }
      = .ok (.downloaded, { files := [exFile], log := [exTitle] }) := by decide

end Sanity

/-- The comparison of pysaber.py line 265 orders by descending approval
ratio: `rankLE a b` holds exactly when the ratio of `b` is at most the
ratio of `a`. -/
theorem rankLE_iff {a b : SongCandidate} : rankLE a b = true ↔ ratio b ≤ ratio a := by
  simp only [rankLE, decide_eq_true_eq, sortKey, ratio, neg_div]
  exact neg_le_neg_iff

/-- The ranking comparison is transitive. -/
theorem rankLE_trans (a b c : SongCandidate) :
    rankLE a b → rankLE b c → rankLE a c := by
  intro hab hbc
  simp only [rankLE, decide_eq_true_eq] at hab hbc ⊢
  exact le_trans hab hbc

/-- The ranking comparison is total. -/
theorem rankLE_total (a b : SongCandidate) : rankLE a b || rankLE b a := by
  simp only [rankLE, Bool.or_eq_true, decide_eq_true_eq]
  exact le_total _ _

/-- C1: for every sequence of candidates, `rank` returns a permutation of
them in descending order of the ratio `upvotes / (downvotes + 0.01)`,
candidates with exactly equal ratios keep their relative input order
(any two-element subsequence with equal ratios survives into the
output), and the candidates with `(upvotes, downvotes)` pairs `(10, 0)`,
`(5, 1)`, `(5, 5)` are ranked `(10, 0)` first, then `(5, 1)`, then
`(5, 5)`. -/
theorem rank_descending_stable (l : List SongCandidate) :
    List.Pairwise (fun a b => ratio b ≤ ratio a) (rank l)
  ∧ List.Perm (rank l) l
  ∧ (∀ a b : SongCandidate, List.Sublist [a, b] l → ratio a = ratio b →
      List.Sublist [a, b] (rank l))
  ∧ rank [candMid, candLow, candTop] = [candTop, candMid, candLow] := by
  refine ⟨?_, ?_, ?_, ?_⟩
  · exact (List.sorted_mergeSort rankLE_trans rankLE_total l).imp
      (fun h => rankLE_iff.mp h)
  · exact List.mergeSort_perm l rankLE
  · intro a b hsub heq
    have hpair : List.Pairwise (fun x y => rankLE x y = true) [a, b] := by
      refine List.Pairwise.cons ?_ (List.Pairwise.cons ?_ List.Pairwise.nil)
      · intro y hy
        rw [List.mem_singleton] at hy
        subst hy
        exact rankLE_iff.mpr heq.ge
      · intro y hy
        exact absurd hy (List.not_mem_nil y)
    exact List.sublist_mergeSort rankLE_trans rankLE_total hpair hsub
  · have h1 : rankLE candMid candLow = true := by
      norm_num [rankLE, sortKey, candMid, candLow]
    have h2 : rankLE candMid candTop = false := by
      norm_num [rankLE, sortKey, candMid, candTop]
    have h3 : rankLE candLow candTop = false := by
      norm_num [rankLE, sortKey, candLow, candTop]
    have h4 : rankLE candTop candMid = true := by
      norm_num [rankLE, sortKey, candTop, candMid]
    have h5 : rankLE candTop candLow = true := by
      norm_num [rankLE, sortKey, candTop, candLow]
    simp [rank, List.mergeSort, List.splitInTwo, List.splitAt_eq, List.merge,
      h1, h2, h3, h4, h5]

/-- Witness for the ranking claim: the stability clause applied to a
concrete duplicated candidate. -/
theorem rank_descending_stable_witness :
    List.Sublist [candMid, candMid] (rank [candMid, candMid]) :=
  (rank_descending_stable [candMid, candMid]).2.2.1 candMid candMid
    (List.Sublist.refl _) rfl

/-- C2 counterexample: acquiring the same candidate twice at the same
destination (link present, not dry-run) yields `Downloaded` then
`AlreadyPresent`, but the log receives one append per call — two in
total, not one: lines 293-295 of pysaber.py run on every accepted
outcome, including `AlreadyPresent`. -/
theorem acquire_twice_two_log_appends :
    acquire false exTitle (some exLink) exFile { files := [], log := [] }
      = .ok (.downloaded, { files := [exFile], log := [exTitle] })
  ∧ acquire false exTitle (some exLink) exFile { files := [exFile], log := [exTitle] }
      = .ok (.alreadyPresent, { files := [exFile], log := [exTitle, exTitle] })
  ∧ ¬ ([exTitle, exTitle] : List Str).length = 1 := by
  refine ⟨by decide, by decide, by decide⟩

/-- C2 amended: calling `acquire` twice for the same candidate and
destination (link present, not dry-run) yields `Downloaded` then
`AlreadyPresent`, with exactly one log append per call (two appends in
total across both calls). -/
theorem acquire_twice_outcomes (songName filename u : Str) (st : RunState)
    (h : ¬ filename ∈ st.files) :
    acquire false songName (some u) filename st
      = .ok (.downloaded,
        { files := st.files ++ [filename], log := st.log ++ [songName] })
  ∧ acquire false songName (some u) filename
      { files := st.files ++ [filename], log := st.log ++ [songName] }
      = .ok (.alreadyPresent,
        { files := st.files ++ [filename],
          log := (st.log ++ [songName]) ++ [songName] }) := by
  constructor
  · simp [acquire, download_song, h]
  · simp [acquire, List.mem_append]

/-- Witness for the amended acquisition claim at a concrete candidate,
destination and empty initial state. -/
theorem acquire_twice_outcomes_witness :
    acquire false exTitle (some exLink) exFile { files := [], log := [] }
      = .ok (.downloaded, { files := [] ++ [exFile], log := [] ++ [exTitle] })
  ∧ acquire false exTitle (some exLink) exFile
      { files := [] ++ [exFile], log := [] ++ [exTitle] }
      = .ok (.alreadyPresent,
        { files := [] ++ [exFile], log := ([] ++ [exTitle]) ++ [exTitle] }) :=
  acquire_twice_outcomes exTitle exFile exLink { files := [], log := [] }
    (by decide)

/-- C3 counterexample: with a transport failure while resolving the
first of two wanted songs, the whole run aborts with the raised error
(the second song is never attempted), instead of reporting "no song
found" for the first song and continuing as the claim states: the
downloading loop of pysaber.py lines 259-300 contains no exception
handler. -/
theorem run_aborts_on_transport_error :
    run_songs fetchC3 true true [] [] [wBad, wGood] [] { files := [], log := [] }
      = .error .transport
  ∧ ¬ run_songs fetchC3 true true [] [] [wBad, wGood] [] { files := [], log := [] }
      = .ok ([.noSongFound qBad, .noSongFound qGood], { files := [], log := [] }) := by
  refine ⟨by decide, by decide⟩

/-- C3 amended: a transport (Retrievable) error raised while searching
for a wanted song propagates out of the downloading loop and aborts the
entire run; no later wanted song is processed, and the per-song "no song
found" report happens only when the search itself succeeds with zero
candidates. -/
theorem transport_error_aborts_run (fetch : Str → Except Err (List Row))
    (automatic test : Bool) (folder playlist : Str) (w : Wanted)
    (rest : List Wanted) (inputs : List Str) (st : RunState) (e : Err)
    (h : search_songs fetch w.song_more = .error e) :
    run_songs fetch automatic test folder playlist (w :: rest) inputs st
      = .error e := by
  simp [run_songs, process_song, h]

/-- Witness for the amended transport-error claim at the concrete
failing oracle. -/
theorem transport_error_aborts_run_witness :
    run_songs fetchC3 true true [] [] [wBad, wGood] [] { files := [], log := [] }
      = .error .transport :=
  transport_error_aborts_run fetchC3 true true [] [] wBad [wGood] []
    { files := [], log := [] } .transport (by decide)

/-- C4: when the candidate has no download link, `download_song` prints
the failure message but does not return: it falls through to
`get(link, headers=HEADERS)` with a `None` link, which raises
`MissingSchema`, so the acquisition step raises instead of completing a
per-song `NoLink` failure (the missing `return` at pysaber.py line 77).
No file is written and no archive bytes are transferred. -/
theorem download_song_no_link_falls_through :
    download_song none exFile []
      = ([Ev.failMsg, Ev.startMsg, Ev.fetchCall none], .error .missingSchema)
  ∧ acquire false exTitle none exFile { files := [], log := [] }
      = .error .missingSchema :=
  ⟨rfl, by decide⟩

/-- C5: the interactive selection loop accepts re-prompting for inputs
that do not start with a digit or are out of range, but an input that
starts with a digit and is not an integer literal (such as "1a") passes
`re.match(r"\d+", n)` and then raises `ValueError` inside `int(n)`
(pysaber.py line 269), aborting instead of re-prompting: the second
input is never consulted. -/
theorem selection_loop_mixed_input_raises :
    selection_loop 3 ["1a".toList, "2".toList] = .error .valueError
  ∧ selection_loop 3 ["x".toList, "9".toList, "0".toList] = .ok (0, []) := by
  refine ⟨by decide, by decide⟩

/-- C6: merging two query result sets deduplicates under full-tuple
equality of `SongCandidate`: the merged length is the cardinality of the
union, and a candidate appearing identically in both sets occurs exactly
once. -/
theorem combine_search_dedup (A B : List SongCandidate) :
    (combine_search [A, B]).length = (A.toFinset ∪ B.toFinset).card
  ∧ ∀ x : SongCandidate, x ∈ A → x ∈ B → (combine_search [A, B]).count x = 1 := by
  have hAB : combine_search [A, B] = (A ++ B).dedup := by
    simp [combine_search]
  constructor
  · rw [hAB, ← List.card_toFinset, List.toFinset_append]
  · intro x hA _
    rw [hAB, List.count_dedup, if_pos (List.mem_append_left B hA)]

/-- Witness for the deduplication claim: a candidate present in both
concrete result sets is counted once in the merged output. -/
theorem combine_search_dedup_witness :
    (combine_search [[candTop], [candTop]]).count candTop = 1 :=
  (combine_search_dedup [candTop] [candTop]).2 candTop
    (List.mem_singleton.mpr rfl) (List.mem_singleton.mpr rfl)

/-- Dropping with the same predicate twice drops nothing new. -/
theorem dropWhile_dropWhile (p : Char → Bool) (l : Str) :
    (l.dropWhile p).dropWhile p = l.dropWhile p := by
  induction l with
  | nil => rfl
  | cons c t ih =>
    by_cases h : p c
    · rw [List.dropWhile_cons_of_pos h]
      exact ih
    · rw [List.dropWhile_cons_of_neg h, List.dropWhile_cons_of_neg h]

/-- A list whose head fails the predicate is unchanged by `dropWhile`. -/
theorem dropWhile_eq_self_of_head (p : Char → Bool) (l : Str)
    (h : ∀ c, l.head? = some c → p c = false) : l.dropWhile p = l := by
  cases l with
  | nil => rfl
  | cons c t =>
    exact List.dropWhile_cons_of_neg (by simp [h c rfl])

/-- The head of a `dropWhile isWs` result is never whitespace. -/
theorem head_dropWhile_ws (l : Str) :
    ∀ c, (l.dropWhile isWs).head? = some c → isWs c = false := by
  intro c hc
  have h := List.head?_dropWhile_not isWs l
  rw [hc] at h
  exact h

/-- Dropping from the reversed list (a trailing strip) either empties the
list or keeps its first element. -/
theorem reverse_dropWhile_head (p : Char → Bool) (l : Str) :
    (l.reverse.dropWhile p).reverse = [] ∨
      ((l.reverse.dropWhile p).reverse).head? = l.head? := by
  cases l with
  | nil => exact Or.inl rfl
  | cons c t =>
    rw [List.reverse_cons, List.dropWhile_append]
    by_cases h1 : (t.reverse.dropWhile p).isEmpty
    · rw [if_pos h1]
      by_cases h2 : p c
      · left
        simp [List.dropWhile_cons_of_pos h2]
      · right
        simp [List.dropWhile_cons_of_neg h2]
    · rw [if_neg h1]
      right
      simp

/-- The stripped string is empty or starts with the first
non-whitespace character of the original. -/
theorem pyStrip_head (l : Str) :
    pyStrip l = [] ∨ (pyStrip l).head? = (l.dropWhile isWs).head? :=
  reverse_dropWhile_head isWs (l.dropWhile isWs)

/-- Python `strip` is idempotent. -/
theorem pyStrip_idem (l : Str) : pyStrip (pyStrip l) = pyStrip l := by
  have h1 : (pyStrip l).dropWhile isWs = pyStrip l := by
    rcases pyStrip_head l with h | h
    · rw [h]
      rfl
    · refine dropWhile_eq_self_of_head isWs _ ?_
      intro c hc
      rw [h] at hc
      exact head_dropWhile_ws l c hc
  show (((pyStrip l).dropWhile isWs).reverse.dropWhile isWs).reverse = pyStrip l
  rw [h1]
  have h2 : (pyStrip l).reverse = (l.dropWhile isWs).reverse.dropWhile isWs := by
    show (((l.dropWhile isWs).reverse.dropWhile isWs).reverse).reverse = _
    rw [List.reverse_reverse]
  rw [h2, dropWhile_dropWhile]
  rfl

/-- Characters of the stripped string come from the original string. -/
theorem mem_pyStrip {c : Char} {l : Str} (h : c ∈ pyStrip l) : c ∈ l := by
  have h1 : c ∈ (l.dropWhile isWs).reverse.dropWhile isWs := List.mem_reverse.mp h
  have h2 : c ∈ (l.dropWhile isWs).reverse := (List.dropWhile_sublist _).subset h1
  have h3 : c ∈ l.dropWhile isWs := List.mem_reverse.mp h2
  exact (List.dropWhile_sublist _).subset h3

/-- C7 counterexample: `canonicalize` is not idempotent.  On the string
made of a space and a dot, `sanitize_song_name` returns the empty string
(the regex matches the leading space, which strips to nothing), but
applying `sanitize_song_name` to that empty result yields `None`, not
the empty string. -/
theorem canonicalize_not_idempotent :
    Option.bind (sanitize_song_name [' ', '.']) sanitize_song_name
      ≠ sanitize_song_name [' ', '.'] := by
  decide

/-- C7 amended: `canonicalize` is idempotent on every string whose
canonical form is nonempty — if `sanitize_song_name s` returns a
nonempty `t` then `sanitize_song_name t = some t` — and for every
nonempty string containing none of the boundary characters `(`, `,`,
`-`, `[`, `.` the result is the trimmed full string. -/
theorem canonicalize_idem_on_nonempty (s t : Str) :
    (sanitize_song_name s = some t → t ≠ [] → sanitize_song_name t = some t)
  ∧ (s ≠ [] → (∀ c ∈ s, isBoundary c = false) →
      sanitize_song_name s = some (pyStrip s)) := by
  constructor
  · intro hs ht
    unfold sanitize_song_name at hs
    cases hTW : s.takeWhile (fun c => !isBoundary c) with
    | nil =>
      rw [hTW] at hs
      exact absurd hs (by simp)
    | cons c cs =>
      rw [hTW] at hs
      have hteq : t = pyStrip (c :: cs) := by
        injection hs with h
        exact h.symm
      have hmem : ∀ x ∈ t, (!isBoundary x) = true := by
        intro x hx
        have hx2 : x ∈ c :: cs := mem_pyStrip (hteq ▸ hx)
        have hx3 : x ∈ s.takeWhile (fun c => !isBoundary c) := by
          rw [hTW]
          exact hx2
        simpa using List.mem_takeWhile_imp hx3
      have hTWt : t.takeWhile (fun c => !isBoundary c) = t :=
        List.takeWhile_eq_self_iff.mpr hmem
      unfold sanitize_song_name
      rw [hTWt]
      cases t with
      | nil => exact absurd rfl ht
      | cons d ds =>
        show some (pyStrip (d :: ds)) = some (d :: ds)
        rw [hteq, pyStrip_idem]
  · intro hne hall
    have hTW : s.takeWhile (fun c => !isBoundary c) = s :=
      List.takeWhile_eq_self_iff.mpr (by
        intro x hx
        simp [hall x hx])
    unfold sanitize_song_name
    rw [hTW]
    cases s with
    | nil => exact absurd rfl hne
    | cons c cs => rfl

/-- Witness for the amended normalization claim on a concrete
boundary-free name. -/
theorem canonicalize_idem_on_nonempty_witness :
    sanitize_song_name ['S'] = some ['S']
  ∧ sanitize_song_name ['S'] = some (pyStrip ['S']) :=
  ⟨(canonicalize_idem_on_nonempty ['S'] ['S']).1 (by decide) (by decide),
    (canonicalize_idem_on_nonempty ['S'] ['S']).2 (by decide) (by decide)⟩

/-- C8 counterexample: on a name with no trailing `-<digits>` marker the
code returns the line unchanged, not trimmed: for the two-character name
made of a space and the letter a, `special_song_name` keeps the leading
space while the claimed result would strip it. -/
theorem special_song_name_keeps_untrimmed :
    hasVariantSuffix [' ', 'a'] = false
  ∧ special_song_name [' ', 'a'] = (none, [' ', 'a'])
  ∧ ¬ special_song_name [' ', 'a'] = (none, pyStrip [' ', 'a']) := by
  refine ⟨by decide, by decide, by decide⟩

/-- C8 amended: for every name without a trailing `-<digits>` pattern,
`special_song_name` returns no variant ordinal together with the name
unchanged (not trimmed). -/
theorem special_song_name_no_suffix (name : Str)
    (h : hasVariantSuffix name = false) :
    special_song_name name = (none, name) := by
  unfold hasVariantSuffix at h
  unfold special_song_name
  simp only at h ⊢
  rw [if_neg (by simp only [h]; exact Bool.false_ne_true)]

/-- Witness for the amended suffix claim at a concrete suffix-free
name. -/
theorem special_song_name_no_suffix_witness :
    special_song_name ['a'] = (none, ['a']) :=
  special_song_name_no_suffix ['a'] (by decide)

/-- C9: on a row whose dedicated mapper-meta block is absent, the parse
does not return a candidate with an empty mapper: the searched text is
empty, `re.search(r"\n+(\w+)", "")` returns `None`, and `.group(1)`
raises `AttributeError` (pysaber.py lines 63-68).  When the block is
present with a word after a newline run, the mapper is that first
word. -/
theorem get_info_no_mapper_block_raises :
    get_info rowNoMapper = .error .attr
  ∧ get_info rowWithMapper =
      .ok (some
        { title := "Title".toList, difficulties := [], upvote := 42, downvote := 3,
          mapper := "Alice".toList, date := "2020-01-01".toList,
          dwn_link := some "http://d".toList }) := by
  refine ⟨by decide, by decide⟩

/-- When every span text parses as an integer, the stats comprehension
succeeds and preserves the length. -/
theorem parseStatInts_all_some (l : List Str)
    (h : ∀ s ∈ l, (pyInt (sanitize s)).isSome) :
    ∃ vs, parseStatInts l = some vs ∧ vs.length = l.length := by
  induction l with
  | nil => exact ⟨[], rfl, rfl⟩
  | cons s ss ih =>
    obtain ⟨vs, hvs, hlen⟩ := ih (fun x hx => h x (List.mem_cons_of_mem s hx))
    obtain ⟨v, hv⟩ := Option.isSome_iff_exists.mp (h s (List.mem_cons_self s ss))
    refine ⟨v :: vs, ?_, by simp [hlen]⟩
    simp [parseStatInts, hv, hvs]

/-- C10: the stats step of `get_info` is total exactly for stat-span
counts 0, 1 and 3 (given parseable span texts): with zero or one span
the default `(0, 0)` is used, with exactly three the last two parsed
values become `(upvotes, downvotes)`, and with two or at least four
spans the tuple unpacking of pysaber.py line 62 raises instead of
producing a candidate or `None`. -/
theorem statsOf_arity :
    (∀ statTexts : List Str, statTexts.length ≤ 1 → statsOf statTexts = .ok (0, 0))
  ∧ (∀ a b c : Str, ∀ u d : Int,
      pyInt (sanitize b) = some u → pyInt (sanitize c) = some d →
      statsOf [a, b, c] = .ok (u, d))
  ∧ (∀ statTexts : List Str,
      statTexts.length = 2 ∨ 4 ≤ statTexts.length →
      (∀ s ∈ statTexts.drop 1, (pyInt (sanitize s)).isSome) →
      statsOf statTexts = .error .unpack) := by
  refine ⟨?_, ?_, ?_⟩
  · intro l h
    have hd : l.drop 1 = [] := List.drop_eq_nil_of_le h
    simp [statsOf, hd, parseStatInts]
  · intro a b c u d hb hc
    simp [statsOf, parseStatInts, hb, hc]
  · intro l hlen hall
    obtain ⟨vs, hvs, hvslen⟩ := parseStatInts_all_some (l.drop 1) hall
    have hd : vs.length = l.length - 1 := by
      rw [hvslen, List.length_drop]
    rcases vs with _ | ⟨x, _ | ⟨y, _ | ⟨z, rest⟩⟩⟩
    · exfalso
      simp only [List.length_nil] at hd
      rcases hlen with h | h <;> omega
    · simp only [List.drop_one] at hvs
      simp [statsOf, hvs]
    · exfalso
      simp only [List.length_cons, List.length_nil] at hd
      rcases hlen with h | h <;> omega
    · simp only [List.drop_one] at hvs
      simp [statsOf, hvs]

/-- Witness for the stats-arity claim: three spans with parseable texts
yield the last two values, matching the spec scenario. -/
theorem statsOf_arity_witness :
    statsOf ["1203 plays".toList, "42".toList, "3".toList] = .ok (42, 3) :=
  statsOf_arity.2.1 "1203 plays".toList "42".toList "3".toList 42 3
    (by decide) (by decide)
